import Mathlib

/-!
Verification model of the Scraplify DevSunite scraper
(`backend/jobs/views.py`, class `DevSuniteScraperService` and `JobViewSet`).

Python strings are modelled as Lean `String`s and processed over their
`List Char` code points (Python `len`/indexing also count code points).
Character predicates (`isDigit`, `isLower`, ...) agree with Python's on the
ASCII inputs this scraper handles.  The Selenium/BeautifulSoup collaborators
(the rendered DOM) are modelled as explicit environment records holding the
results the selectors would return; all pure string/control logic is
translated line by line from the source.
-/

/-! ## String helpers (Python `str` operations) -/

/-- Python `str.lower()` (ASCII-faithful). -/
def lowerStr (s : String) : String := ⟨s.data.map Char.toLower⟩

/-- Python `str.upper()` (ASCII-faithful). -/
def upperStr (s : String) : String := ⟨s.data.map Char.toUpper⟩

/-- Characters stripped by Python `str.strip()`. -/
def stripL (l : List Char) : List Char :=
  ((l.dropWhile Char.isWhitespace).reverse.dropWhile Char.isWhitespace).reverse

/-- Python `str.strip()`. -/
def stripStr (s : String) : String := ⟨stripL s.data⟩

/-- Python `needle in haystack` substring test, over code-point lists. -/
def containsSubL (n : List Char) : List Char → Bool
  | [] => n.isEmpty
  | c :: cs => n.isPrefixOf (c :: cs) || containsSubL n cs

/-- Python `needle in haystack` substring test. -/
def containsSub (n s : String) : Bool := containsSubL n.data s.data

/-- Python `s.startswith(p)`. -/
def startsWithStr (p s : String) : Bool := p.data.isPrefixOf s.data

/-- Fuelled worker for `str.replace` (all occurrences, left to right,
non-overlapping).  The fuel is the length of the list, which bounds the
number of steps since each step consumes at least one character. -/
def replaceAllAux (pat rep : List Char) : Nat → List Char → List Char
  | 0, l => l
  | _ + 1, [] => []
  | fuel + 1, c :: cs =>
    if pat.isPrefixOf (c :: cs) then
      rep ++ replaceAllAux pat rep fuel (List.drop (pat.length - 1) cs)
    else
      c :: replaceAllAux pat rep fuel cs

/-- Python `s.replace(pat, rep)`; `pat` is never empty in this code base. -/
def replaceAll (pat rep s : String) : String :=
  if pat.data.isEmpty then s else ⟨replaceAllAux pat.data rep.data s.data.length s.data⟩

/-- Python `s.split(sep)` for a single-character separator
(`"".split(c) == [""]`, so the result is always non-empty). -/
def splitOnCharL (sep : Char) : List Char → List (List Char)
  | [] => [[]]
  | c :: cs =>
    let r := splitOnCharL sep cs
    if c = sep then [] :: r
    else
      match r with
      | [] => [[c]]
      | h :: t => (c :: h) :: t

/-- Python `s.isdigit()` restricted to ASCII digits: non-empty and all digits. -/
def isDigitStr (s : String) : Bool := !s.data.isEmpty && s.data.all Char.isDigit

/-- Value of a digit string (used for `int(..)` on `isdigit` text). -/
def natOfDigits (l : List Char) : Nat :=
  l.foldl (fun n c => n * 10 + (c.toNat - '0'.toNat)) 0

/-- Python `str.split()` with no argument: split on whitespace runs,
dropping empty pieces.  Worker carries the current word reversed. -/
def wordsAux : List Char → List Char → List String
  | [], cur => if cur.isEmpty then [] else [⟨cur.reverse⟩]
  | c :: cs, cur =>
    if c.isWhitespace then
      if cur.isEmpty then wordsAux cs [] else (⟨cur.reverse⟩ : String) :: wordsAux cs []
    else wordsAux cs (c :: cur)

/-- Python `str.split()` (whitespace words). -/
def wordsOf (s : String) : List String := wordsAux s.data []

/-- `re.sub(r'\s+', ' ', _)`: collapse each whitespace run to one space.
The flag records whether the previous character was whitespace. -/
def collapseWsAux : Bool → List Char → List Char
  | _, [] => []
  | prevWs, c :: cs =>
    if c.isWhitespace then
      if prevWs then collapseWsAux true cs else ' ' :: collapseWsAux true cs
    else c :: collapseWsAux false cs

/-- `re.sub(r'\s+', ' ', s)`. -/
def collapseWs (l : List Char) : List Char := collapseWsAux false l

/-- Python `haystack.find(needle)` (code-point index of first occurrence),
worker accumulating the current index. -/
def subIdxAux (n : List Char) : List Char → Nat → Option Nat
  | [], i => if n.isEmpty then some i else none
  | c :: cs, i => if n.isPrefixOf (c :: cs) then some i else subIdxAux n cs (i + 1)

/-- Python `haystack.find(needle)`, `none` for `-1`. -/
def subIdx (n l : List Char) : Option Nat := subIdxAux n l 0

/-! ## Python `decimal.Decimal` values

A `Decimal` built from a regex group `\d+(?:\.\d+)?` is an exact decimal
number: mantissa over a power of ten.  The scraper only multiplies such a
value by the natural number 100000, which acts on the mantissa alone, so the
pair `(mant, exp)` — denoting `mant / 10 ^ exp` — models the arithmetic
exactly. -/

structure PyDecimal where
  mant : Nat
  exp : Nat
  deriving DecidableEq, Repr

/-- The integer Decimal `n`. -/
def PyDecimal.ofNat (n : Nat) : PyDecimal := ⟨n, 0⟩

/-- `Decimal * nat` (exact). -/
def PyDecimal.mulNat (d : PyDecimal) (n : Nat) : PyDecimal := ⟨d.mant * n, d.exp⟩

/-- Numeric value of a `PyDecimal`, for interpretation only. -/
def PyDecimal.toRat (d : PyDecimal) : ℚ := (d.mant : ℚ) / ((10 : ℚ) ^ d.exp)

/-! ## Regex matchers for `parse_compensation`

Each Python regex is implemented as a hand-rolled matcher with `re.search`
semantics: try every start position left to right; at a position, quantifiers
are greedy.  For these particular patterns greedy matching without
backtracking is exact: every character class in them is disjoint from the
character class that follows it, so giving characters back can never turn a
failure into a success. -/

/-- Greedy `\d+` span. -/
def spanDigits (l : List Char) : List Char × List Char :=
  (l.takeWhile Char.isDigit, l.dropWhile Char.isDigit)

/-- Greedy `\s*`. -/
def skipWs (l : List Char) : List Char := l.dropWhile Char.isWhitespace

/-- A matched number group `\d+(?:\.\d+)?`: integer digits and fraction digits. -/
def NumParts := List Char × List Char

/-- Greedy match of `(\d+(?:\.\d+)?)` at the head, returning the group and
the rest of the input. -/
def matchNum (l : List Char) : Option (NumParts × List Char) :=
  let (ds, r) := spanDigits l
  if ds.isEmpty then none
  else
    match r with
    | '.' :: r2 =>
      let (ds2, r3) := spanDigits r2
      if ds2.isEmpty then some ((ds, []), r) else some ((ds, ds2), r3)
    | _ => some ((ds, []), r)

/-- The `Decimal` denoted by a matched number group. -/
def numPartsToDec (p : NumParts) : PyDecimal := ⟨natOfDigits (p.1 ++ p.2), p.2.length⟩

/-- Character class `[-to]`. -/
def isRangeSep (c : Char) : Bool := c = '-' || c = 't' || c = 'o'

/-- `(\d+(?:\.\d+)?)\s*[-to]+\s*(\d+(?:\.\d+)?)` anchored at the head. -/
def rangeAt1 (l : List Char) : Option (NumParts × NumParts) :=
  match matchNum l with
  | none => none
  | some (n1, r1) =>
    let r2 := skipWs r1
    let cls := r2.takeWhile isRangeSep
    let r3 := r2.dropWhile isRangeSep
    if cls.isEmpty then none
    else
      match matchNum (skipWs r3) with
      | none => none
      | some (n2, _) => some (n1, n2)

/-- `(\d+(?:\.\d+)?)\s*-\s*(\d+(?:\.\d+)?)` anchored at the head. -/
def rangeAt2 (l : List Char) : Option (NumParts × NumParts) :=
  match matchNum l with
  | none => none
  | some (n1, r1) =>
    match skipWs r1 with
    | '-' :: r2 =>
      match matchNum (skipWs r2) with
      | none => none
      | some (n2, _) => some (n1, n2)
    | _ => none

/-- `between\s+(\d+(?:\.\d+)?)\s+and\s+(\d+(?:\.\d+)?)` anchored at the head. -/
def rangeAt3 (l : List Char) : Option (NumParts × NumParts) :=
  if "between".data.isPrefixOf l then
    let r := l.drop 7
    let ws1 := r.takeWhile Char.isWhitespace
    if ws1.isEmpty then none
    else
      match matchNum (skipWs r) with
      | none => none
      | some (n1, r1) =>
        let ws2 := r1.takeWhile Char.isWhitespace
        if ws2.isEmpty then none
        else if "and".data.isPrefixOf (skipWs r1) then
          let r2 := (skipWs r1).drop 3
          let ws3 := r2.takeWhile Char.isWhitespace
          if ws3.isEmpty then none
          else
            match matchNum (skipWs r2) with
            | none => none
            | some (n2, _) => some (n1, n2)
        else none
  else none

/-- `(\d+(?:\.\d+)?)\s*l?pa?` anchored at the head: after the number and
optional whitespace, an optional `l`, a mandatory `p` (the trailing `a?`
always succeeds). -/
def singleAt1 (l : List Char) : Option NumParts :=
  match matchNum l with
  | none => none
  | some (n, r) =>
    match skipWs r with
    | 'l' :: 'p' :: _ => some n
    | 'p' :: _ => some n
    | _ => none

/-- `₹\s*(\d+(?:\.\d+)?)` anchored at the head. -/
def singleAt2 (l : List Char) : Option NumParts :=
  match l with
  | '₹' :: r =>
    match matchNum (skipWs r) with
    | none => none
    | some (n, _) => some n
  | _ => none

/-- `(\d+(?:\.\d+)?)\s*lakhs?` anchored at the head (the trailing `s?`
always succeeds). -/
def singleAt3 (l : List Char) : Option NumParts :=
  match matchNum l with
  | none => none
  | some (n, r) => if "lakh".data.isPrefixOf (skipWs r) then some n else none

/-- `re.search`: try the anchored matcher at every start position, left to
right (including the empty suffix). -/
def searchPos {α : Type} (f : List Char → Option α) : List Char → Option α
  | [] => f []
  | c :: cs =>
    match f (c :: cs) with
    | some r => some r
    | none => searchPos f cs

/-- `DevSuniteScraperService.parse_compensation` (views.py:1399-1440).
Strips `lpa`, `₹` and `,` from the lowercased text, then tries the three
range patterns and the three single-value patterns in order; a matched range
or single value is scaled by 100000 (`Decimal(group) * 100000`).  The
`try/except` around `Decimal(...)` never fires because a matched group is
always a valid decimal literal. -/
def parse_compensation (compensation_text : String) : Option PyDecimal × Option PyDecimal :=
  if compensation_text = "" then (none, none)
  else
    let comp :=
      stripStr (replaceAll "," "" (replaceAll "₹" "" (replaceAll "lpa" "" (lowerStr compensation_text))))
    let c := comp.data
    match searchPos rangeAt1 c with
    | some (n1, n2) =>
      (some ((numPartsToDec n1).mulNat 100000), some ((numPartsToDec n2).mulNat 100000))
    | none =>
      match searchPos rangeAt2 c with
      | some (n1, n2) =>
        (some ((numPartsToDec n1).mulNat 100000), some ((numPartsToDec n2).mulNat 100000))
      | none =>
        match searchPos rangeAt3 c with
        | some (n1, n2) =>
          (some ((numPartsToDec n1).mulNat 100000), some ((numPartsToDec n2).mulNat 100000))
        | none =>
          match searchPos singleAt1 c with
          | some n =>
            let s := (numPartsToDec n).mulNat 100000
            (some s, some s)
          | none =>
            match searchPos singleAt2 c with
            | some n =>
              let s := (numPartsToDec n).mulNat 100000
              (some s, some s)
            | none =>
              match searchPos singleAt3 c with
              | some n =>
                let s := (numPartsToDec n).mulNat 100000
                (some s, some s)
              | none => (none, none)

/-! ## Job cards (`parse_job_card`, views.py:330-419)

A card is one job-listing DOM fragment.  Each selector the Python code runs
against the fragment is modelled by the field holding its result: `none`
when no element matches, `some t` when the first matching element has
stripped text `t` (`get_text(strip=True)`, which may well be the empty
string).  `fontMediumSpans` and `anchors` hold the texts/links of all
matching elements in document order, as `find_all` returns them. -/

structure Anchor where
  href : String
  text : String
  deriving DecidableEq, Repr

structure Card where
  /-- `p` with classes text-xs, font-medium, text-neutral-500, uppercase. -/
  companyText : Option String
  /-- `div` with classes tracking-tight, font-semibold. -/
  titleText : Option String
  /-- all `span`s with class font-medium. -/
  fontMediumSpans : List String
  /-- `div` with classes inline-flex, rounded-full, border. -/
  jobTypeText : Option String
  /-- `span` font-semibold text-neutral-200 inside the border-t section. -/
  compText : Option String
  /-- all `a` elements with an href, in document order. -/
  anchors : List Anchor
  /-- `p` with class text-sm. -/
  descText : Option String
  deriving DecidableEq, Repr

structure JobInfo where
  title : String
  company : String
  location : String
  experience : String
  job_type : String
  compensation : String
  view_details_url : String
  apply_url : String
  short_description : String
  deriving DecidableEq, Repr

/-- The location keyword list of views.py:360. -/
def location_keywords : List String :=
  ["bangalore", "mumbai", "delhi", "pune", "hyderabad", "chennai", "remote",
   "india", "usa", "uk", "gurgaon", "gurugram", "noida"]

/-- `re.match(r'\d+\s*years?', text)`: the text starts with digits, optional
whitespace and the letters `year` (the final `s?` cannot fail a prefix
match). -/
def matchYears (l : List Char) : Bool :=
  let ds := l.takeWhile Char.isDigit
  if ds.isEmpty then false else "year".data.isPrefixOf (skipWs (l.dropWhile Char.isDigit))

/-- The span loop of views.py:356-364: each font-medium span either
overwrites the location (if it mentions a location keyword) or else the
experience (if it mentions `year`), later spans winning. -/
def locExpFold : List String → String × String → String × String
  | [], acc => acc
  | text :: rest, (loc, exp) =>
    if location_keywords.any (fun k => containsSub k (lowerStr text)) then
      locExpFold rest (text, exp)
    else if containsSub "year" (lowerStr text) || matchYears text.data then
      locExpFold rest (loc, text)
    else locExpFold rest (loc, exp)

/-- Job-type normalisation of views.py:367-379. -/
def jobTypeOf : Option String → String
  | none => "Full-time"
  | some s =>
    let u := upperStr s
    if containsSub "FULL TIME" u then "FULL_TIME"
    else if containsSub "PART TIME" u then "PART_TIME"
    else if containsSub "INTERNSHIP" u then "INTERNSHIP"
    else if containsSub "CONTRACT" u then "CONTRACT"
    else u

def base_url : String := "https://devsunite.com"

/-- `len(href.split('/')[-1])`. -/
def lastSegLen (href : String) : Nat := ((splitOnCharL '/' href.data).getLastD []).length

/-- views.py:389-395: first anchor whose href contains `/jobs/` with a last
path segment longer than 10; a relative href is resolved against the base. -/
def viewDetailsUrl (anchors : List Anchor) : String :=
  match anchors.find? (fun a => containsSub "/jobs/" a.href && decide (10 < lastSegLen a.href)) with
  | some a => if startsWithStr "/" a.href then base_url ++ a.href else a.href
  | none => ""

/-- views.py:398-404: first anchor whose text mentions `apply` and whose
href does not start with `/jobs/`. -/
def applyUrl (anchors : List Anchor) : String :=
  match anchors.find? (fun a =>
      containsSub "apply" (lowerStr a.text) && !startsWithStr "/jobs/" a.href) with
  | some a => a.href
  | none => ""

/-- `DevSuniteScraperService.parse_job_card` (views.py:330-419).  Fields
default to the `job_info` initialiser of views.py:333-343; a record is
returned exactly when the title and company differ from their `Unknown`
placeholders. -/
def parse_job_card (card : Card) : Option JobInfo :=
  let company := card.companyText.getD "Unknown Company"
  let title := card.titleText.getD "Unknown Position"
  let locExp := locExpFold card.fontMediumSpans ("Remote", "Not specified")
  let job_type := jobTypeOf card.jobTypeText
  let compensation := card.compText.getD ""
  let view_details_url := viewDetailsUrl card.anchors
  let apply_url := applyUrl card.anchors
  let short_description := card.descText.getD ""
  if title ≠ "Unknown Position" ∧ company ≠ "Unknown Company" then
    some ⟨title, company, locExp.1, locExp.2, job_type, compensation,
      view_details_url, apply_url, short_description⟩
  else none

/-! ## Skill vocabulary (views.py)

Exact transcriptions of the module's keyword lists. -/

/-- `known_techs` of `_split_concatenated_skills` (views.py:762-808), in
source order. -/
def known_techs : List String :=
  ["AI/ML", "AI", "ML", "Machine Learning", "Deep Learning", "LLMs", "LLM",
   "TensorFlow", "PyTorch", "Scikit-learn", "Pandas", "NumPy",
   "JavaScript", "TypeScript", "Python", "Java", "C++", "C#", "PHP", "Ruby",
   "Go", "Rust", "Swift", "Kotlin", "Scala", "R", "MATLAB",
   "React.js", "React", "Angular", "Vue.js", "Vue", "Next.js", "Nuxt.js",
   "Node.js", "Express.js", "Express", "Svelte", "jQuery",
   "HTML5", "HTML", "CSS3", "CSS", "SASS", "SCSS", "Bootstrap", "Tailwind",
   "Material-UI", "Ant Design", "Chakra UI",
   "Django", "Flask", "FastAPI", "Spring Boot", "Spring", "Laravel",
   "Ruby on Rails", "ASP.NET", "Symfony", "Koa.js",
   "PostgreSQL", "MySQL", "MongoDB", "Redis", "SQLite", "Oracle",
   "SQL Server", "DynamoDB", "Cassandra", "Elasticsearch", "Neo4j",
   "AWS", "Azure", "GCP", "Google Cloud", "Docker", "Kubernetes", "Jenkins",
   "GitLab CI", "GitHub Actions", "Terraform", "Ansible", "Vagrant",
   "Git", "GitHub", "GitLab", "Bitbucket", "JIRA", "Confluence",
   "VS Code", "IntelliJ", "Eclipse", "Postman", "Swagger",
   "GraphQL", "REST API", "REST", "gRPC", "JSON", "XML", "SOAP",
   "Jest", "Mocha", "Selenium", "Cypress", "JUnit", "PyTest",
   "Unit Testing", "Integration Testing", "TDD", "BDD",
   "React Native", "Flutter", "iOS", "Android", "Xamarin", "Ionic",
   "Webpack", "Babel", "Vite", "Parcel", "Rollup", "Grunt", "Gulp",
   "Agile", "Scrum", "Kanban", "DevOps", "CI/CD"]

/-- Stable insertion for descending length order: `x` goes before the first
element strictly shorter than it, so equal lengths keep source order, which
is what Python's stable `sorted(key=len, reverse=True)` produces. -/
def insertLenDesc (x : String) : List String → List String
  | [] => [x]
  | y :: ys => if x.data.length < y.data.length then y :: insertLenDesc x ys else x :: y :: ys

/-- `sorted(known_techs, key=len, reverse=True)` (views.py:811). -/
def known_techs_sorted : List String := known_techs.foldr insertLenDesc []

/-- `tech_indicators` of `_looks_like_skill` (views.py:1033-1040). -/
def tech_indicators : List String :=
  ["python", "java", "javascript", "react", "node", "sql", "html", "css",
   "aws", "docker", "kubernetes", "git", "api", "rest", "graphql",
   "mongodb", "postgresql", "mysql", "redis", "django", "flask",
   "angular", "vue", "typescript", "go", "rust", "swift", "kotlin",
   "machine learning", "ai", "data science", "devops", "ci/cd",
   "agile", "scrum", "jenkins", "terraform", "ansible"]

/-- `non_skill_words` of `_looks_like_skill` (views.py:1047-1053). -/
def non_skill_words : List String :=
  ["the", "and", "or", "in", "on", "at", "to", "for", "with", "of",
   "is", "are", "be", "have", "has", "will", "can", "must", "should",
   "years", "experience", "knowledge", "skills", "ability", "bachelor",
   "degree", "certification", "location", "salary", "remote", "job",
   "position", "role", "company", "team", "work", "candidate"]

/-- `clean_skills` of `_is_single_clean_skill` (views.py:934-941). -/
def clean_skills : List String :=
  ["python", "java", "javascript", "typescript", "react", "angular", "vue",
   "node.js", "express", "django", "flask", "spring", "html", "css",
   "postgresql", "mysql", "mongodb", "redis", "git", "docker", "kubernetes",
   "aws", "azure", "gcp", "graphql", "rest", "api", "json", "xml",
   "bootstrap", "tailwind", "sass", "scss", "webpack", "babel", "junit",
   "jest", "mocha", "cypress", "selenium", "jenkins", "gitlab", "github"]

/-- `DevSuniteScraperService._looks_like_skill` (views.py:1021-1061). -/
def looks_like_skill (text : String) : Bool :=
  if text = "" || decide ((stripStr text).data.length < 2) then false
  else
    let t := lowerStr (stripStr text)
    if decide (50 < t.data.length) || decide (t.data.length < 2) then false
    else if tech_indicators.any (fun k => containsSub k t) then true
    else
      let ws := wordsOf t
      if ws.length ≤ 3 then ws.all (fun w => !non_skill_words.contains w)
      else false

/-- `DevSuniteScraperService._is_single_clean_skill` (views.py:928-943). -/
def is_single_clean_skill (text : String) : Bool :=
  if text = "" || decide (text.data.length < 2) then false
  else
    clean_skills.contains (lowerStr text) ||
      (decide (text.data.length ≤ 15) && !text.data.any Char.isDigit)

/-! ## `_split_concatenated_skills` (views.py:736-926) -/

/-- Character class `[,;|•/]` of the delimiter-splitting regex. -/
def isDelimChar (c : Char) : Bool := c = ',' || c = ';' || c = '|' || c = '•' || c = '/'

/-- `re.split(r'[,;|•/]|\sand\s|\s&\s', text)`: scan left to right, at each
position trying the single-character class first, then `\sand\s`, then
`\s&\s`.  The accumulator carries the current segment reversed; the fuel is
the input length, which bounds the steps since each consumes at least one
character. -/
def splitDelimsAux : Nat → List Char → List Char → List (List Char)
  | _, [], cur => [cur.reverse]
  | 0, _ :: _, cur => [cur.reverse]
  | fuel + 1, c :: cs, cur =>
    if isDelimChar c then cur.reverse :: splitDelimsAux fuel cs []
    else if c.isWhitespace then
      match cs with
      | 'a' :: 'n' :: 'd' :: w2 :: rest =>
        if w2.isWhitespace then cur.reverse :: splitDelimsAux fuel rest []
        else splitDelimsAux fuel cs (c :: cur)
      | '&' :: w2 :: rest =>
        if w2.isWhitespace then cur.reverse :: splitDelimsAux fuel rest []
        else splitDelimsAux fuel cs (c :: cur)
      | _ => splitDelimsAux fuel cs (c :: cur)
    else splitDelimsAux fuel cs (c :: cur)

/-- `re.split(r'[,;|•/]|\sand\s|\s&\s', text)`. -/
def splitDelims (l : List Char) : List (List Char) := splitDelimsAux l.length l []

/-- views.py:751: `any(delim in text for delim in [...])`. -/
def delimPresent (text : String) : Bool :=
  [",", ";", "|", "•", "/", " and ", " & "].any (fun d => containsSub d text)

/-- Remove the code points `[i, i+len)` from a list (Python slice
`s[:i] + s[i+len:]`). -/
def removeSpanAt (l : List Char) (i len : Nat) : List Char := l.take i ++ l.drop (i + len)

/-- The technology loop of views.py:816-839: the first dictionary name (in
length-descending order) whose lowercase form occurs in the lowercased text
is removed at its first occurrence; the remainder has whitespace collapsed
and is stripped.  The loop `break`s after one match, so at most one name is
ever extracted per call.  (The `is_word_start`/`is_word_end` locals in the
source are computed but never used.) -/
def findTechMatch : List String → String → Option (String × String)
  | [], _ => none
  | tech :: rest, text =>
    let tl := (lowerStr tech).data
    match subIdx tl (lowerStr text).data with
    | some i =>
      some (tech, stripStr ⟨collapseWs (removeSpanAt text.data i tl.length)⟩)
    | none => findTechMatch rest text

/-- `re.sub(r'[^\w\s.-]', '', s)`: keep word characters, whitespace, dots
and hyphens. -/
def cleanNonWordChars (l : List Char) : List Char :=
  l.filter (fun c => c.isAlpha || c.isDigit || c = '_' || c.isWhitespace || c = '.' || c = '-')

/-- `re.findall(r'[A-Z][a-z]*\.?[a-z]*|[a-z]+|[A-Z]+(?=[A-Z][a-z]|\b)', _)`
(views.py:859).  Alternatives are tried in order at each position and
matching is greedy; the first alternative already matches any single
uppercase letter, so the third alternative is unreachable.  Positions that
match no alternative are skipped.  Fuel is the input length. -/
def ccFindallAux : Nat → List Char → List (List Char)
  | 0, _ => []
  | _ + 1, [] => []
  | fuel + 1, c :: cs =>
    if c.isUpper then
      let ls1 := cs.takeWhile Char.isLower
      let r1 := cs.dropWhile Char.isLower
      match r1 with
      | '.' :: r2 =>
        let ls2 := r2.takeWhile Char.isLower
        let r3 := r2.dropWhile Char.isLower
        (c :: (ls1 ++ '.' :: ls2)) :: ccFindallAux fuel r3
      | _ => (c :: ls1) :: ccFindallAux fuel r1
    else if c.isLower then
      let ls := cs.takeWhile Char.isLower
      let r := cs.dropWhile Char.isLower
      (c :: ls) :: ccFindallAux fuel r
    else ccFindallAux fuel cs

/-- The camel-case token list of views.py:859, as strings. -/
def ccFindall (l : List Char) : List String := (ccFindallAux l.length l).map (fun w => ⟨w⟩)

/-- views.py:884-887: a part is kept on its own if it has at least two
characters and looks like a skill or equals a known technology
case-insensitively. -/
def validPart (techs : List String) (p : String) : Bool :=
  decide (2 ≤ p.data.length) &&
    (looks_like_skill p || techs.any (fun t => lowerStr t == lowerStr p))

/-- The reconstruction loop of views.py:864-890: walk the parts, first
trying to combine two adjacent parts (directly, then with a dot) into a
known technology, else keeping a valid single part. -/
def reconstructParts (techs : List String) : List String → List String
  | [] => []
  | [p] => if validPart techs p then [p] else []
  | p :: q :: rest =>
    if techs.any (fun t => lowerStr t == lowerStr (p ++ q)) then
      (p ++ q) :: reconstructParts techs rest
    else if techs.any (fun t => lowerStr t == lowerStr (p ++ "." ++ q)) then
      (p ++ "." ++ q) :: reconstructParts techs rest
    else if validPart techs p then p :: reconstructParts techs (q :: rest)
    else reconstructParts techs (q :: rest)

/-- The alternative splitting loop of views.py:897-924: for each technology
(length-descending) occurring strictly inside the lowercased text, build
`[tech]` extended by technologies exactly equal to the lowercased text
before/after the occurrence; return the first such list with at least two
entries.  (When `_split_concatenated_skills` reaches this loop no technology
occurs in the text at all — the earlier loop would have returned — so it
never fires; it is embedded for fidelity.) -/
def altSplitLoop (techs allTechs : List String) (textLower : String) : Option (List String) :=
  match techs with
  | [] => none
  | tech :: rest =>
    let tl := (lowerStr tech).data
    if containsSubL tl textLower.data && decide (tl.length < textLower.data.length) then
      match subIdx tl textLower.data with
      | some i =>
        let before : String := ⟨textLower.data.take i⟩
        let after : String := ⟨textLower.data.drop (i + tl.length)⟩
        let withBefore :=
          if before ≠ "" then
            match allTechs.find? (fun o => lowerStr o == before) with
            | some o => [o, tech]
            | none => [tech]
          else [tech]
        let withAfter :=
          if after ≠ "" then
            match allTechs.find? (fun o => lowerStr o == after) with
            | some o => withBefore ++ [o]
            | none => withBefore
          else withBefore
        if 2 ≤ withAfter.length then some withAfter else altSplitLoop rest allTechs textLower
      | none => altSplitLoop rest allTechs textLower
    else altSplitLoop rest allTechs textLower

/-- `DevSuniteScraperService._split_concatenated_skills` (views.py:736-926).
Order of attempts, as in the source: empty/short early return; the
clean-single-skill early return; explicit-delimiter splitting; one
dictionary extraction plus a skill-like remainder; a length-30 early
return; camel-case reconstruction; the (dead) alternative loop; the
original text. -/
def split_concatenated_skills (text : String) : List String :=
  if text = "" then []
  else if text.data.length < 3 then [text]
  else
    let t := stripStr text
    if decide (t.data.length < 20) && !containsSub " " t && is_single_clean_skill t then [t]
    else if delimPresent t then
      let parts := (splitDelims t.data).map (fun p => stripStr ⟨p⟩)
      let skills := parts.filter (fun p =>
        p ≠ "" && decide (2 ≤ p.data.length) && decide (p.data.length < 25) && looks_like_skill p)
      if skills.isEmpty then [t] else skills
    else
      let step := findTechMatch known_techs_sorted t
      let found0 : List String := match step with | some (tech, _) => [tech] | none => []
      let remaining : String := match step with | some (_, rem) => rem | none => t
      let found :=
        if remaining ≠ "" && decide (2 ≤ remaining.data.length) then
          let rem2 := stripStr ⟨cleanNonWordChars remaining.data⟩
          if rem2 ≠ "" && looks_like_skill rem2 then found0 ++ [rem2] else found0
        else found0
      if !found.isEmpty then found
      else if t.data.length ≤ 30 then [t]
      else if 8 < t.data.length then
        let parts := ccFindall t.data
        let fromParts : Option (List String) :=
          if 1 < parts.length then
            let valid := reconstructParts known_techs_sorted parts
            if 2 ≤ valid.length then some valid else none
          else none
        match fromParts with
        | some v => v
        | none =>
          match altSplitLoop known_techs_sorted known_techs_sorted (lowerStr t) with
          | some v => v
          | none => [t]
      else [t]

/-! ## Detail pages and persistence
(`scrape_job_details`, views.py:438-528; `save_job_to_database`,
views.py:1442-1480)

`scrape_job_details` drives the browser and a cascade of BeautifulSoup
selectors; that DOM interaction is abstracted as a `DetailEnv`: whether the
fetch/parse of a URL raises, and if not, the description and skills its
strategies produce.  What matters to the orchestrator — and what is kept
verbatim — is the shape of the result: the success path and the `except`
path both return a dict with the two keys `full_description` and
`skills_required`, the latter with empty values. -/

structure JobDetails where
  full_description : String
  skills_required : List String
  deriving DecidableEq, Repr

structure DetailEnv where
  /-- whether fetching+parsing this URL completes without an exception. -/
  fetchOk : String → Bool
  /-- the description the strategies of views.py:447-511 produce. -/
  description : String → String
  /-- the skills `_extract_required_skills_from_page` produces. -/
  skills : String → List String

/-- `DevSuniteScraperService.scrape_job_details` (views.py:438-528).  On an
exception the `except` branch returns `{'full_description': "",
'skills_required': []}` — a non-empty dict. -/
def scrape_job_details (env : DetailEnv) (job_url : String) : JobDetails :=
  if env.fetchOk job_url then
    { full_description := env.description job_url, skills_required := env.skills job_url }
  else
    { full_description := "", skills_required := [] }

/-- A row of the `Job` table (the fields `save_job_to_database` writes). -/
structure SavedJob where
  external_id : String
  role : String
  company_name : String
  location : String
  job_type : String
  min_salary : Option PyDecimal
  max_salary : Option PyDecimal
  salary_currency : String
  experience_required : String
  short_description : String
  full_description : String
  skills_required : List String
  compensation : String
  apply_link : String
  view_details_link : String
  details_scraped : Bool
  deriving DecidableEq, Repr

/-- The `external_id` of views.py:1454:
`f"devsunite_{company.replace(' ', '_')}_{title.replace(' ', '_')}"`. -/
def mkExternalId (company title : String) : String :=
  "devsunite_" ++ replaceAll " " "_" company ++ "_" ++ replaceAll " " "_" title

/-- The record `save_job_to_database` writes for a card `job_info` and
detail dict `job_details` (views.py:1445-1471).  `job_details` is `none`
for the empty dict `{}` (details never attempted) and `some d` otherwise.
The `job_info` dict always carries all of its keys, so
`job_info.get('short_description', ...)` and `job_info.get('compensation',
'')` always return the stored values and their defaults are dead;
`job_info.get('apply_url') or job_info.get('view_details_url', '')` is the
usual falsy-string fallback.  `details_scraped := bool(job_details)` is
truthiness of the dict — `true` whenever details were attempted, even if
`scrape_job_details` failed. -/
def savedRecord (job_info : JobInfo) (job_details : Option JobDetails) : SavedJob :=
  let full_description :=
    match job_details with
    | some d => d.full_description
    | none => job_info.short_description
  let skills :=
    match job_details with
    | some d => d.skills_required
    | none => []
  let salary := parse_compensation job_info.compensation
  { external_id := mkExternalId job_info.company job_info.title
    role := job_info.title
    company_name := job_info.company
    location := job_info.location
    job_type := job_info.job_type
    min_salary := salary.1
    max_salary := salary.2
    salary_currency := "INR"
    experience_required := job_info.experience
    short_description := job_info.short_description
    full_description := if full_description ≠ "" then full_description
      else job_info.short_description
    skills_required := skills
    compensation := job_info.compensation
    apply_link := if job_info.apply_url ≠ "" then job_info.apply_url
      else job_info.view_details_url
    view_details_link := job_info.view_details_url
    details_scraped := job_details.isSome }

/-- `Job.objects.update_or_create(external_id=..., defaults=...)`: if a row
with the key exists it is overwritten (`created = False`), else the row is
inserted (`created = True`).  The table is a list of rows; on tables whose
keys are unique — the invariant every `upsert`-built table has — the map
touches exactly the one matching row, as Django does. -/
def upsert (db : List SavedJob) (row : SavedJob) : List SavedJob × Bool :=
  if db.any (fun r => r.external_id == row.external_id) then
    (db.map (fun r => if r.external_id == row.external_id then row else r), false)
  else (db ++ [row], true)

/-- `DevSuniteScraperService.save_job_to_database` (views.py:1442-1480):
build the record, upsert it by `external_id`, return the row and the
`created` flag.  The `except` branch (returning `(None, False)`) is
unreachable in this total model of the database. -/
def save_job_to_database (db : List SavedJob) (job_info : JobInfo)
    (job_details : Option JobDetails) : List SavedJob × Option SavedJob × Bool :=
  let row := savedRecord job_info job_details
  let u := upsert db row
  (u.1, some row, u.2)

/-! ## Pagination (`navigate_to_next_page`, views.py:188-328)

The Selenium queries are modelled by a `NavEnv` describing the rendered
page: the stripped text of the first highlighted page button, whether an
enabled button with a given label exists, whether an eligible chevron
button exists, the first job title observed at each one-second poll after a
click, and whether an end-of-results indicator occurs in the page text. -/

structure NavEnv where
  /-- views.py:197-203: first job title captured before clicking ("" when
  the cards or the title link are missing). -/
  initialFirstTitle : String
  /-- stripped text of the first `bg-[#2CEE91]` page button, if any. -/
  currentPageLabel : Option String
  /-- whether an enabled button with exactly this label text exists. -/
  nextBtnEnabled : String → Bool
  /-- first job title at poll `t` after clicking the page-number button
  (`none`: no cards or no title link, the inner `except: pass`). -/
  titleAfterNext : Nat → Option String
  /-- whether some chevron selector yields an enabled, displayed button
  without `disabled` in its class. -/
  chevronClickable : Bool
  /-- first job title at poll `t` after clicking the chevron. -/
  titleAfterChevron : Nat → Option String
  /-- whether one of the end-of-results indicator strings occurs in the
  lowercased page source. -/
  endIndicator : Bool

/-- The polling loops of views.py:226-241 and 276-289: at some poll within
the budget the first job title is readable and differs from the baseline. -/
def pollChanged (f : Nat → Option String) (initial : String) (budget : Nat) : Bool :=
  (List.range budget).any (fun t =>
    match f t with
    | some s => s != initial
    | none => false)

/-- The current page number of views.py:209-215: the text of the first
highlighted page button when it is all digits, else 1. -/
def currentPageNumber (env : NavEnv) : Nat :=
  match env.currentPageLabel with
  | some s => if isDigitStr s then natOfDigits s.data else 1
  | none => 1

/-- `DevSuniteScraperService.navigate_to_next_page` (views.py:188-328).
Method 1 (page-number button): when the button for `current_page + 1` is
enabled it is clicked and the title polled; the method returns `True`
whether or not the title ever changes (views.py:243-244 "Still return True
since we clicked successfully").  Method 2 (chevron): likewise returns
`True` once an eligible button was clicked (views.py:291-292).  Method 3:
an end-of-results indicator yields `False`; so does falling through. -/
def navigate_to_next_page (env : NavEnv) : Bool :=
  let next_page := currentPageNumber env + 1
  if env.nextBtnEnabled (toString next_page) then
    if pollChanged env.titleAfterNext env.initialFirstTitle 10 then true else true
  else if env.chevronClickable then
    if pollChanged env.titleAfterChevron env.initialFirstTitle 8 then true else true
  else if env.endIndicator then false
  else false

/-! ## Multi-page card extraction (`extract_job_cards`, views.py:87-186)

The browser is modelled as a sequence of page snapshots: `pages t` is the
card list parsed from `driver.page_source` after `t` successful
navigations, and `nav t` is what `navigate_to_next_page` returns there. -/

structure ExtractState where
  all_jobs : List JobInfo
  page_num : Nat
  previous_job_count : Nat
  no_change_count : Nat
  snapshot : Nat
  deriving Repr

/-- The per-page loop of views.py:131-150: parse each card; a parsed card
is appended to `page_jobs` unless a record with the same title and company
is already in `all_jobs` (the accumulated jobs of previous iterations —
`page_jobs` of the current page is not consulted). -/
def collectPageJobs (allJobs : List JobInfo) : List Card → List JobInfo
  | [] => []
  | c :: cs =>
    match parse_job_card c with
    | some ji =>
      if allJobs.any (fun e => e.title == ji.title && e.company == ji.company) then
        collectPageJobs allJobs cs
      else ji :: collectPageJobs allJobs cs
    | none => collectPageJobs allJobs cs

/-- The `while page_num <= max_pages` loop of views.py:101-172, one
constructor case per exit path.  The fuel (`max_pages + 1` at the start) is
an upper bound on the iterations, since `page_num` grows by one per
iteration and iteration requires `page_num < max_pages`; the fuel-0 case is
unreachable. -/
def extractLoop (pages : Nat → List Card) (nav : Nat → Bool) (max_pages : Nat) :
    Nat → ExtractState → ExtractState
  | 0, s => s
  | fuel + 1, s =>
    if max_pages < s.page_num then s
    else
      let job_cards := pages s.snapshot
      if job_cards.isEmpty then s
      else
        let plateau := job_cards.length == s.previous_job_count
        let nc := if plateau then s.no_change_count + 1 else 0
        if plateau && decide (2 ≤ nc) then { s with no_change_count := nc }
        else
          let prev := job_cards.length
          let start_index := if 1 < s.page_num then s.all_jobs.length else 0
          let page_jobs := collectPageJobs s.all_jobs (job_cards.drop start_index)
          let all := s.all_jobs ++ page_jobs
          if page_jobs.isEmpty then
            { s with all_jobs := all, previous_job_count := prev, no_change_count := nc }
          else if s.page_num < max_pages then
            if nav s.snapshot then
              extractLoop pages nav max_pages fuel
                { all_jobs := all, page_num := s.page_num + 1, previous_job_count := prev,
                  no_change_count := nc, snapshot := s.snapshot + 1 }
            else { s with all_jobs := all, previous_job_count := prev, no_change_count := nc }
          else { s with all_jobs := all, previous_job_count := prev, no_change_count := nc }

/-- `DevSuniteScraperService.extract_job_cards` (views.py:87-186): run the
page loop from page 1 on snapshot 0 and return the accumulated jobs. -/
def extract_job_cards (pages : Nat → List Card) (nav : Nat → Bool)
    (max_pages : Nat) : List JobInfo :=
  (extractLoop pages nav max_pages (max_pages + 1)
    { all_jobs := [], page_num := 1, previous_job_count := 0,
      no_change_count := 0, snapshot := 0 }).all_jobs

/-! ## Orchestrator (`scrape_jobs`, views.py:1482-1552) -/

structure ScrapeResults where
  success : Bool
  jobs_scraped : Nat
  jobs_saved : Nat
  pages_scraped : Nat
  errors : List String
  message : String
  deriving DecidableEq, Repr

/-- The collaborators one run of `scrape_jobs` interacts with: whether
`setup_driver` succeeds, the page snapshots and navigation outcomes, and
the detail-page environment. -/
structure ScrapeEnv where
  driverOk : Bool
  pages : Nat → List Card
  nav : Nat → Bool
  detail : DetailEnv

/-- The per-job loop of views.py:1515-1532: details are fetched when
`scrape_details` is set and the card has a view-details URL (an empty
string is falsy); the saved counter grows whenever `save_job_to_database`
returns a row, which in this total model is always.  The `except` branch
that would append to `errors` is unreachable here. -/
def processJobs (detail : DetailEnv) (scrape_details : Bool) :
    List JobInfo → List SavedJob → Nat → List SavedJob × Nat
  | [], db, saved => (db, saved)
  | ji :: rest, db, saved =>
    let job_details : Option JobDetails :=
      if scrape_details && ji.view_details_url != "" then
        some (scrape_job_details detail ji.view_details_url)
      else none
    let r := save_job_to_database db ji job_details
    processJobs detail scrape_details rest r.1 (if r.2.1.isSome then saved + 1 else saved)

/-- `DevSuniteScraperService.scrape_jobs` (views.py:1482-1552).  Returns
the result dict and the database after the run.  A failed `setup_driver`
and an empty extraction each return early with `success := false` and the
corresponding error entry; otherwise every processed job is saved,
`pages_scraped` is the estimate `min(max_pages, len(jobs)//12 + 1)` of
views.py:1538, and `errors` stays empty. -/
def scrape_jobs (env : ScrapeEnv) (max_jobs max_pages : Nat) (scrape_details : Bool)
    (db : List SavedJob) : ScrapeResults × List SavedJob :=
  if !env.driverOk then
    ({ success := false, jobs_scraped := 0, jobs_saved := 0, pages_scraped := 0,
       errors := ["Failed to initialize WebDriver"], message := "" }, db)
  else
    let jobs := extract_job_cards env.pages env.nav max_pages
    if jobs.isEmpty then
      ({ success := false, jobs_scraped := 0, jobs_saved := 0, pages_scraped := 0,
         errors := ["No jobs found on any pages"], message := "" }, db)
    else
      let jobs_to_process := if 0 < max_jobs then jobs.take max_jobs else jobs
      let pr := processJobs env.detail scrape_details jobs_to_process db 0
      ({ success := true, jobs_scraped := jobs_to_process.length, jobs_saved := pr.2,
         pages_scraped := min max_pages (jobs.length / 12 + 1),
         errors := [],
         message := "Successfully scraped and saved " ++ toString pr.2 ++ "/" ++
           toString jobs_to_process.length ++ " jobs from DevSunite across multiple pages!" },
       pr.1)

/-! ## The refresh endpoint (`JobViewSet.refresh`, views.py:1610-1654) -/

structure RefreshPayload where
  success : Bool
  message : String
  jobs_scraped : Nat
  jobs_saved : Nat
  pages_scraped : Nat
  errors : List String
  deriving DecidableEq, Repr

def HTTP_200_OK : Nat := 200

/-- `JobViewSet.refresh` (views.py:1610-1654): run `scrape_jobs` with the
fixed defaults `max_jobs=50, max_pages=5, scrape_details=True` and wrap the
results.  Both the `success` and the failure branch respond with HTTP 200
(views.py:1638 and 1647, "Still 200 since operation completed"); the 500
response exists only in the `except` handler around the whole action, which
is unreachable in this total model. -/
def refresh (env : ScrapeEnv) (db : List SavedJob) : Nat × RefreshPayload × List SavedJob :=
  let r := scrape_jobs env 50 5 true db
  if r.1.success then
    (HTTP_200_OK,
     { success := true, message := "Jobs refreshed successfully",
       jobs_scraped := r.1.jobs_scraped, jobs_saved := r.1.jobs_saved,
       pages_scraped := r.1.pages_scraped, errors := r.1.errors }, r.2)
  else
    (HTTP_200_OK,
     { success := false, message := "Jobs refresh completed with some issues",
       jobs_scraped := r.1.jobs_scraped, jobs_saved := r.1.jobs_saved,
       pages_scraped := r.1.pages_scraped, errors := r.1.errors }, r.2)

/-! ## Claim C1: emission guard of `parse_job_card` -/

/-- A card whose title and company elements exist but carry empty stripped
text (possible for content-free elements under `get_text(strip=True)`). -/
def cardEmptyTitle : Card :=
  { companyText := some "Acme", titleText := some "", fontMediumSpans := [],
    jobTypeText := none, compText := none, anchors := [], descText := none }

/-- Claim C1, counterexample: `parse_job_card` emits a record whose title
is the empty string — the guard compares against the `Unknown Position`
placeholder, not against emptiness — so "a job record is emitted only if
both the title and the company are non-empty after extraction" is false. -/
theorem C1_counterexample :
    (parse_job_card cardEmptyTitle).map JobInfo.title = some "" := by decide

/-- Claim C1, amended: a job record is emitted only if the extracted title
differs from the placeholder `Unknown Position` and the extracted company
differs from `Unknown Company` (an extracted-but-empty text still yields a
record); in particular, for every card fragment lacking both a title-like
and a company-like element, no job record is produced. -/
theorem C1_emission_guard :
    (∀ (c : Card) (ji : JobInfo), parse_job_card c = some ji →
      ji.title ≠ "Unknown Position" ∧ ji.company ≠ "Unknown Company") ∧
    (∀ c : Card, c.titleText = none → c.companyText = none → parse_job_card c = none) := by
  constructor
  · intro c ji h
    simp only [parse_job_card] at h
    split at h
    next hcond =>
      cases h
      exact hcond
    next => exact absurd h (by simp)
  · intro c ht hc
    simp [parse_job_card, ht, hc]

/-- A regular card and the record `parse_job_card` yields for it. -/
def cardPlain : Card :=
  { companyText := some "Acme", titleText := some "Dev", fontMediumSpans := [],
    jobTypeText := none, compText := none, anchors := [], descText := none }

def jiPlain : JobInfo :=
  ⟨"Dev", "Acme", "Remote", "Not specified", "Full-time", "", "", "", ""⟩

/-- A card lacking both a title-like and a company-like element. -/
def cardNoElems : Card :=
  { companyText := none, titleText := none, fontMediumSpans := [],
    jobTypeText := none, compText := none, anchors := [], descText := none }

/-- Claim C1, witness: the amended guard instantiated at a concrete emitted
record and at a concrete card with neither element. -/
theorem C1_emission_guard_witness :
    (jiPlain.title ≠ "Unknown Position" ∧ jiPlain.company ≠ "Unknown Company") ∧
    parse_job_card cardNoElems = none :=
  ⟨C1_emission_guard.1 cardPlain jiPlain (by decide),
   C1_emission_guard.2 cardNoElems rfl rfl⟩

/-! ## Claim C2: `parse_compensation` -/

/-- Claim C2, evaluation at the claim's inputs: the range `"6-12 LPA"` is
scaled by 100000 per side as claimed, and `"Competitive"` yields
`(None, None)`; but `"₹25L"` — which the source comment at views.py:1424
documents as an example the single-value patterns should catch — also
yields `(None, None)`: the preprocessing strips `lpa` and `₹`, after which
no single-value pattern (each requiring a `p`, a `₹` or the word `lakh`)
can match the bare `25l`. -/
theorem C2_parse_compensation_eval :
    parse_compensation "6-12 LPA" =
      (some (PyDecimal.ofNat 600000), some (PyDecimal.ofNat 1200000)) ∧
    parse_compensation "₹25L" = (none, none) ∧
    parse_compensation "Competitive" = (none, none) := by decide

/-! ## Claim C3: deduplication scope of `extract_job_cards` -/

/-- Two cards with the same title and company but different locations. -/
def cardEngA : Card :=
  { companyText := some "Acme", titleText := some "Engineer",
    fontMediumSpans := ["Remote"], jobTypeText := none, compText := none,
    anchors := [], descText := none }

def cardEngB : Card :=
  { companyText := some "Acme", titleText := some "Engineer",
    fontMediumSpans := ["Mumbai"], jobTypeText := none, compText := none,
    anchors := [], descText := none }

def cardOther : Card :=
  { companyText := some "Globex", titleText := some "Designer",
    fontMediumSpans := [], jobTypeText := none, compText := none,
    anchors := [], descText := none }

/-- Claim C3, counterexample: two cards on the same page with identical
(title, company) both survive — the duplicate check consults only
`all_jobs`, which receives the page's records after the page loop — so the
accumulated list contains two records with the same key pair. -/
theorem C3_counterexample :
    (extract_job_cards (fun t => if t = 0 then [cardEngA, cardEngB] else [])
        (fun _ => true) 1).map (fun j => (j.title, j.company)) =
      [("Engineer", "Acme"), ("Engineer", "Acme")] := by decide

/-- Claim C3, amended: the (title, company) duplicate check is applied only
against records accumulated from previous page iterations — a card whose
key matches an earlier page's record is dropped regardless of its other
fields, while two same-key cards within one page are both kept. -/
theorem C3_dedup_scope :
    (extract_job_cards
        (fun t => if t = 0 then [cardEngA] else if t = 1 then [cardOther, cardEngB] else [])
        (fun _ => true) 2).map (fun j => (j.title, j.company, j.location)) =
      [("Engineer", "Acme", "Remote")] ∧
    (extract_job_cards (fun t => if t = 0 then [cardEngA, cardEngB] else [])
        (fun _ => true) 1).length = 2 := by decide

/-! ## Claim C4: the `details_scraped` flag -/

/-- A card record with a view-details link. -/
def jiLinked : JobInfo :=
  ⟨"Dev", "Acme", "Remote", "Not specified", "Full-time", "",
   "https://devsunite.com/jobs/abcdefghijk", "", "short card text"⟩

/-- A detail environment in which every fetch raises. -/
def detailFailEnv : DetailEnv :=
  { fetchOk := fun _ => false, description := fun _ => "", skills := fun _ => [] }

/-- Claim C4, counterexample: processing a job whose detail fetch fails
still saves the record with `details_scraped = true`, because the `except`
branch of `scrape_job_details` returns a non-empty dict and
`save_job_to_database` sets the flag to `bool(job_details)`.  The record is
retained with its card-level fields (the full description falls back to the
card's short description), but the flag contradicts the claimed
`detailsScraped=false`. -/
theorem C4_counterexample :
    detailFailEnv.fetchOk jiLinked.view_details_url = false ∧
    (processJobs detailFailEnv true [jiLinked] [] 0).1.map SavedJob.details_scraped = [true] ∧
    (processJobs detailFailEnv true [jiLinked] [] 0).1.map SavedJob.full_description =
      ["short card text"] := by decide

/-- Claim C4, amended: `details_scraped` is true exactly when a detail-page
fetch was attempted — `scrape_details` enabled and the card carrying a
non-empty view-details URL — regardless of whether the fetch succeeded;
when the fetch fails, the record is still retained with card-level fields
(`full_description` falls back to the card's short description, role and
company are the card's) but with `details_scraped = true`. -/
theorem C4_details_flag (env : DetailEnv) (sd : Bool) (ji : JobInfo) :
    (savedRecord ji (if sd && ji.view_details_url != "" then
        some (scrape_job_details env ji.view_details_url) else none)).details_scraped
      = (sd && ji.view_details_url != "") ∧
    (savedRecord ji (some { full_description := "", skills_required := [] })).details_scraped
      = true ∧
    (savedRecord ji (some { full_description := "", skills_required := [] })).full_description
      = ji.short_description ∧
    (savedRecord ji (some { full_description := "", skills_required := [] })).role = ji.title ∧
    (savedRecord ji (some { full_description := "", skills_required := [] })).company_name
      = ji.company := by
  refine ⟨?_, by simp [savedRecord], by simp [savedRecord], by simp [savedRecord],
    by simp [savedRecord]⟩
  cases hc : sd && ji.view_details_url != "" <;> simp [savedRecord, hc]

/-! ## Claim C5: the two-page end-to-end scenario -/

/-- A stub card carrying only the required title and company. -/
def stubCard (title company : String) : Card :=
  { companyText := some company, titleText := some title, fontMediumSpans := [],
    jobTypeText := none, compText := none, anchors := [], descText := none }

def pageOneCards : List Card :=
  [stubCard "Job A1" "Acme", stubCard "Job A2" "Acme", stubCard "Job A3" "Acme",
   stubCard "Job A4" "Acme", stubCard "Job A5" "Acme"]

def pageTwoCards : List Card :=
  [stubCard "Job B1" "Globex", stubCard "Job B2" "Globex", stubCard "Job B3" "Globex",
   stubCard "Job B4" "Globex", stubCard "Job B5" "Globex"]

/-- The two-page fetcher stub of the claim: snapshot 0 shows the five page-1
cards, snapshot 1 the five different page-2 cards; navigation always
reports success; details always fetch. -/
def twoPageEnv : ScrapeEnv :=
  { driverOk := true,
    pages := fun t => if t = 0 then pageOneCards else if t = 1 then pageTwoCards else [],
    nav := fun _ => true,
    detail := { fetchOk := fun _ => true, description := fun _ => "", skills := fun _ => [] } }

/-- Claim C5, counterexample: the run saves 5 records, not 10, and reports
`pages_scraped = 1`, not 2.  On the second iteration the accumulator slices
the card list from index `len(all_jobs) = 5` (the infinite-scroll
assumption of views.py:128), which drops all five replaced page-2 cards;
`pages_scraped` is the estimate `min(max_pages, len(jobs)//12 + 1) =
min(2, 1)`. -/
theorem C5_counterexample :
    (scrape_jobs twoPageEnv 100 2 true []).1.jobs_saved = 5 ∧
    (scrape_jobs twoPageEnv 100 2 true []).1.pages_scraped = 1 := by decide

/-- Claim C5, amended: for the two-page fetcher stub with `max_pages = 2`
and `max_jobs = 100`, the orchestrator yields exactly 5 saved records (the
page-1 cards; the page-2 cards are dropped by the start-index slice), a
result with `success = true`, `pages_scraped = 1` (the `len(jobs)//12 + 1`
estimate) and an empty errors list. -/
theorem C5_two_page_run :
    (scrape_jobs twoPageEnv 100 2 true []).1 =
      { success := true, jobs_scraped := 5, jobs_saved := 5, pages_scraped := 1,
        errors := [],
        message :=
          "Successfully scraped and saved 5/5 jobs from DevSunite across multiple pages!" } ∧
    (scrape_jobs twoPageEnv 100 2 true []).2.map SavedJob.role =
      ["Job A1", "Job A2", "Job A3", "Job A4", "Job A5"] := by decide

/-! ## Claim C6: splitting concatenated skills -/

/-- Claim C6, counterexample: with both `Python` and `React` in the
dictionary, `_split_concatenated_skills "PythonReact"` returns the
concatenated original `["PythonReact"]`, not `["Python", "React"]`: the
clean-single-skill guard (shorter than 20 characters, no space, at most 15
characters with no digit) accepts it before any dictionary matching runs. -/
theorem C6_counterexample :
    known_techs.contains "Python" = true ∧ known_techs.contains "React" = true ∧
    split_concatenated_skills "PythonReact" = ["PythonReact"] := by decide

/-- Claim C6, amended: every delimiter-free, space-free input of length 3
to 19 accepted by `_is_single_clean_skill` (in particular any such string
of at most 15 characters without digits, like `PythonReact`) is returned
unsplit as the single token `[s]`; dictionary-based extraction only applies
beyond this guard, and then removes at most one dictionary name per call,
appending the skill-like remainder. -/
theorem C6_clean_guard (s : String) (h3 : ¬ s.data.length < 3)
    (hstrip : stripStr s = s) (h20 : s.data.length < 20)
    (hsp : containsSub " " s = false) (hclean : is_single_clean_skill s = true) :
    split_concatenated_skills s = [s] := by
  have hne : s ≠ "" := by
    intro h
    rw [h] at h3
    exact h3 (by decide)
  simp only [split_concatenated_skills, hstrip]
  rw [if_neg hne, if_neg h3]
  simp only [h20, hsp, hclean]
  simp [hsp, hclean]

/-- Claim C6, witness: the amended guard instantiated at `PythonReact`. -/
theorem C6_clean_guard_witness : split_concatenated_skills "PythonReact" = ["PythonReact"] :=
  C6_clean_guard "PythonReact" (by decide) (by decide) (by decide) (by decide) (by decide)

/-! ## Claim C7: structured results on fetcher-acquisition failure -/

/-- Claim C7: `scrape_jobs` is a total function into result structures — it
yields a structured result for every environment — and when the WebDriver
cannot be started it reports `success = false` with zero scraped and saved
counts, the failure recorded in the errors list, and the database
untouched. -/
theorem C7_driver_failure (env : ScrapeEnv) (max_jobs max_pages : Nat) (sd : Bool)
    (db : List SavedJob) (h : env.driverOk = false) :
    (scrape_jobs env max_jobs max_pages sd db).1.success = false ∧
    (scrape_jobs env max_jobs max_pages sd db).1.jobs_scraped = 0 ∧
    (scrape_jobs env max_jobs max_pages sd db).1.jobs_saved = 0 ∧
    "Failed to initialize WebDriver" ∈ (scrape_jobs env max_jobs max_pages sd db).1.errors ∧
    (scrape_jobs env max_jobs max_pages sd db).2 = db := by
  simp [scrape_jobs, h]

/-- An environment whose WebDriver initialisation fails. -/
def deadDriverEnv : ScrapeEnv :=
  { driverOk := false, pages := fun _ => [], nav := fun _ => false,
    detail := { fetchOk := fun _ => false, description := fun _ => "", skills := fun _ => [] } }

/-- Claim C7, witness: the failure contract at a concrete dead-driver
environment. -/
theorem C7_driver_failure_witness :
    (scrape_jobs deadDriverEnv 100 10 true []).1.success = false ∧
    (scrape_jobs deadDriverEnv 100 10 true []).1.jobs_scraped = 0 ∧
    (scrape_jobs deadDriverEnv 100 10 true []).1.jobs_saved = 0 ∧
    "Failed to initialize WebDriver" ∈ (scrape_jobs deadDriverEnv 100 10 true []).1.errors ∧
    (scrape_jobs deadDriverEnv 100 10 true []).2 = [] :=
  C7_driver_failure deadDriverEnv 100 10 true [] rfl

/-! ## Claim C8: pagination termination -/

/-- A simulated page state in which the next-page button exists and is
enabled but the first-item signature never changes, however often it is
polled (hence across any number of consecutive attempts). -/
def stalledNavEnv : NavEnv :=
  { initialFirstTitle := "Job A1",
    currentPageLabel := some "1",
    nextBtnEnabled := fun label => label == "2",
    titleAfterNext := fun _ => some "Job A1",
    chevronClickable := false,
    titleAfterChevron := fun _ => none,
    endIndicator := false }

/-- Claim C8, counterexample: with the first-item signature unchanged
through the whole polling budget, `navigate_to_next_page` still returns
`true` ("advanced"), not the terminal `false` the claim asserts: the code
comment at views.py:244 says "Still return True since we clicked
successfully". -/
theorem C8_counterexample : navigate_to_next_page stalledNavEnv = true := by decide

/-- Claim C8, amended: whenever a next-page-number control is present and
enabled the Navigator reports "advanced" (`true`) even if the first-item
signature never changes; termination within the page cap is enforced by the
orchestrator instead, whose loop counter never exceeds `max_pages` from any
state within the cap. -/
theorem C8_nav_and_cap :
    (∀ env : NavEnv, env.nextBtnEnabled (toString (currentPageNumber env + 1)) = true →
      navigate_to_next_page env = true) ∧
    (∀ (pages : Nat → List Card) (nav : Nat → Bool) (max_pages fuel : Nat)
        (s : ExtractState), s.page_num ≤ max_pages →
      (extractLoop pages nav max_pages fuel s).page_num ≤ max_pages) := by
  constructor
  · intro env h
    simp [navigate_to_next_page, h]
  · intro pages nav max_pages fuel
    induction fuel with
    | zero => intro s hs; exact hs
    | succ n ih =>
      intro s hs
      simp only [extractLoop]
      split_ifs <;>
        first
          | exact hs
          | exact ih _ (show s.page_num + 1 ≤ max_pages by omega)

/-- A stalled-fetcher state for the witness: the next control is reported
present on a page without a highlighted page button. -/
def pagedNavEnv : NavEnv :=
  { initialFirstTitle := "Job B1",
    currentPageLabel := none,
    nextBtnEnabled := fun label => label == "2",
    titleAfterNext := fun _ => some "Job B1",
    chevronClickable := false,
    titleAfterChevron := fun _ => none,
    endIndicator := false }

/-- Claim C8, witness: both amended parts at concrete inputs — a concrete
clickable-but-stalled environment reports "advanced", and a concrete
constant fetcher never drives the loop counter past the cap of 3. -/
theorem C8_nav_and_cap_witness :
    navigate_to_next_page pagedNavEnv = true ∧
    (extractLoop (fun _ => [stubCard "Nav" "Acme"]) (fun _ => true) 3 4
      { all_jobs := [], page_num := 1, previous_job_count := 0, no_change_count := 0,
        snapshot := 0 }).page_num ≤ 3 :=
  ⟨C8_nav_and_cap.1 pagedNavEnv (by decide),
   C8_nav_and_cap.2 (fun _ => [stubCard "Nav" "Acme"]) (fun _ => true) 3 4
     { all_jobs := [], page_num := 1, previous_job_count := 0, no_change_count := 0,
       snapshot := 0 } (by decide)⟩

/-! ## Claim C9: deterministic external identifier and idempotent upsert -/

/-- After upserting a row, some row with its key is in the table. -/
theorem upsert_any_key (db : List SavedJob) (row : SavedJob) :
    ((upsert db row).1.any (fun r => r.external_id == row.external_id)) = true := by
  unfold upsert
  split_ifs with h
  · simp only [List.any_eq_true] at h ⊢
    obtain ⟨x, hx, hkey⟩ := h
    refine ⟨row, List.mem_map.mpr ⟨x, hx, ?_⟩, by simp⟩
    simp [hkey]
  · simp

/-- Claim C9: the upsert key `external_id` is the deterministic function
`devsunite_{company}_{title}` (spaces replaced by underscores) of the
(company, title) pair — two saves with equal company and title, whatever
their other fields and detail dicts, produce the identical `external_id`,
and the second save updates in place: its `created` flag is false and the
table size is unchanged. -/
theorem C9_external_id_deterministic (i1 i2 : JobInfo) (d1 d2 : Option JobDetails)
    (db : List SavedJob) (hc : i1.company = i2.company) (ht : i1.title = i2.title) :
    (savedRecord i1 d1).external_id = (savedRecord i2 d2).external_id ∧
    (save_job_to_database (save_job_to_database db i1 d1).1 i2 d2).2.2 = false ∧
    ((save_job_to_database (save_job_to_database db i1 d1).1 i2 d2).1).length =
      ((save_job_to_database db i1 d1).1).length := by
  have hid : (savedRecord i1 d1).external_id = (savedRecord i2 d2).external_id := by
    simp [savedRecord, mkExternalId, hc, ht]
  have hany : (((save_job_to_database db i1 d1).1).any
      (fun r => r.external_id == (savedRecord i2 d2).external_id)) = true := by
    have h := upsert_any_key db (savedRecord i1 d1)
    simpa [save_job_to_database, hid] using h
  refine ⟨hid, ?_, ?_⟩
  · show (upsert (save_job_to_database db i1 d1).1 (savedRecord i2 d2)).2 = false
    unfold upsert
    rw [if_pos hany]
  · show (upsert (save_job_to_database db i1 d1).1 (savedRecord i2 d2)).1.length =
      (save_job_to_database db i1 d1).1.length
    unfold upsert
    rw [if_pos hany]
    simp

/-- Two card records agreeing on title and company, differing elsewhere. -/
def jiRunOne : JobInfo :=
  ⟨"Dev", "Acme", "Remote", "Not specified", "Full-time", "", "", "", "card A"⟩

def jiRunTwo : JobInfo :=
  ⟨"Dev", "Acme", "Mumbai", "3 years", "FULL_TIME", "6-12 LPA", "", "", "card B"⟩

/-- Claim C9, witness: the determinism and idempotence at two concrete
records from "different runs" sharing only company and title. -/
theorem C9_external_id_deterministic_witness :
    (savedRecord jiRunOne none).external_id = (savedRecord jiRunTwo none).external_id ∧
    (save_job_to_database (save_job_to_database [] jiRunOne none).1 jiRunTwo none).2.2 = false ∧
    ((save_job_to_database (save_job_to_database [] jiRunOne none).1 jiRunTwo none).1).length =
      ((save_job_to_database [] jiRunOne none).1).length :=
  C9_external_id_deterministic jiRunOne jiRunTwo none none [] rfl rfl

/-! ## Claim C10: the refresh endpoint status code -/

/-- Claim C10: for every environment and database — including runs whose
result has `success = false`, such as a failed WebDriver initialisation
with zero jobs saved — the refresh action responds with HTTP 200; both
branches of views.py:1630-1647 return `HTTP_200_OK`, and only the
`except` handler (unreachable in this total model) returns 500. -/
theorem C10_refresh_http_200 (env : ScrapeEnv) (db : List SavedJob) :
    (refresh env db).1 = 200 := by
  simp only [refresh]
  split <;> rfl
